import Mathlib

/-!
Shallow embedding of the `docker-machine-driver-ovh` plugin (single Go source
`main.go`): the OVH cloud API client façade and the provisioning driver.
Remote HTTP responses are modelled as explicit environment parameters
(`Remote`, or a direct response argument); Go `error` values are modelled by
`GoErr`, pointer-valued results by `Option`, and fallible calls by `Except`.
A Go panic (nil dereference, index out of range) is modelled by `Option.none`
at the outermost level. Go strings are Lean `String`s; the character-level
operations (`strings.Replace`, `strings.HasPrefix`) are defined over
`String.toList`.
-/

set_option autoImplicit false
set_option linter.dupNamespace false

namespace Ovh

/-- Go `error` values produced in this code base: `*ovh.APIError` (an API
response error carrying an HTTP status code and message) or a plain
`fmt.Errorf` message. -/
inductive GoErr where
  | apiError (code : Int) (message : String)
  | errorf (message : String)
deriving DecidableEq, Repr

/-- URL of the customer interface, for error messages (`CustomerInterface`). -/
def CustomerInterface : String := "https://www.ovh.com/manager/cloud/index.html"

/-- `Project` record. -/
structure Project where
  Name : String
  ID : String
  Unleash : Bool
  CreationDate : String
  OrderID : Int
  Status : String
deriving DecidableEq, Repr

/-- `Flavor` record. The Go field `Type` is called `Type_` here. -/
structure Flavor where
  Region : String
  Name : String
  ID : String
  OS : String
  Vcpus : Int
  MemoryGB : Int
  DiskSpaceGB : Int
  Type_ : String
deriving DecidableEq, Repr

/-- `Image` record. -/
structure Image where
  Region : String
  Name : String
  ID : String
  OS : String
  CreationDate : String
  Status : String
  MinDisk : Int
  Visibility : String
deriving DecidableEq, Repr

/-- `Network` record. The Go field `Type` is called `Type_` here. -/
structure Network where
  Status : String
  Name : String
  Type_ : String
  ID : String
  VlanID : Int
deriving DecidableEq, Repr

/-- `Sshkey` record. -/
structure Sshkey where
  Name : String
  ID : String
  PublicKey : String
  Fingerprint : String
  Regions : List String
deriving DecidableEq, Repr

/-- `IP` record. The Go field `Type` is called `Type_` here. -/
structure IP where
  IP : String
  Type_ : String
deriving DecidableEq, Repr

/-- `NetworkParam` record. -/
structure NetworkParam where
  ID : String
deriving DecidableEq, Repr

/-- `Instance` record. -/
structure Instance where
  Name : String
  ID : String
  Status : String
  Created : String
  Region : String
  NetworkParams : List NetworkParam
  Image : Image
  Flavor : Flavor
  Sshkey : Sshkey
  IPAddresses : List IP
  MonthlyBilling : Bool
deriving DecidableEq, Repr

/-- The remote environment: the JSON-decoded result each GET endpoint of the
provider would return during the run, plus the two local effects the driver
consults (`os.Stat` on the key path and `mcnutils.GenerateRandomID`).  Each
API client method is a pure function of this environment. -/
structure Remote where
  projects : Except GoErr (List String)
  project : String → Except GoErr Project
  regions : String → Except GoErr (List String)
  flavors : String → String → Except GoErr (List Flavor)
  images : String → String → Except GoErr (List Image)
  sshkeysList : String → String → Except GoErr (List Sshkey)
  networks : String → Bool → Except GoErr (List Network)
  fileExistsAt : String → Bool
  randomID : String

/-- `API.GetProjects`: GET `/cloud/project`. -/
def GetProjects (env : Remote) : Except GoErr (List String) :=
  env.projects

/-- `API.GetProject`: GET `/cloud/project/{id}`. -/
def GetProject (env : Remote) (projectID : String) : Except GoErr Project :=
  env.project projectID

/-- First loop of `GetProjectByName`: if `projectName` is a valid projectID,
return `GetProject(projectID)` for it. -/
def findProjectFast (env : Remote) (projectName : String) :
    List String → Option (Except GoErr Project)
  | [] => none
  | projectID :: rest =>
      if projectID = projectName then some (GetProject env projectID)
      else findProjectFast env projectName rest

/-- Second loop of `GetProjectByName`: fetch each project and match on its
human-readable name; a fetch error aborts the scan. -/
def scanProjectsByName (env : Remote) (projectName : String) :
    List String → Except GoErr Project
  | [] => .error (.errorf ("Project '" ++ projectName ++
      "' does not exist on OVH cloud. To create or rename a project, please visit " ++
      CustomerInterface))
  | projectID :: rest =>
      match GetProject env projectID with
      | .error e => .error e
      | .ok p =>
          if p.Name = projectName then .ok p
          else scanProjectsByName env projectName rest

/-- `API.GetProjectByName`: exact-ID fast path over the project list, else a
name-based scan, else a not-found error. -/
def GetProjectByName (env : Remote) (projectName : String) : Except GoErr Project :=
  match GetProjects env with
  | .error e => .error e
  | .ok projects =>
      match findProjectFast env projectName projects with
      | some r => r
      | none => scanProjectsByName env projectName projects

/-- `API.GetNetworks`: GET `/cloud/project/{id}/network/private` or `.../public`. -/
def GetNetworks (env : Remote) (projectID : String) (privateNet : Bool) :
    Except GoErr (List Network) :=
  env.networks projectID privateNet

/-- `API.GetPublicNetworkID`: returns `networks[0].ID` of the public network
list.  The index is unconditional in the source, so an empty list is an
index-out-of-range panic, modelled by `none`. -/
def GetPublicNetworkID (env : Remote) (projectID : String) :
    Option (Except GoErr String) :=
  match GetNetworks env projectID false with
  | .error e => some (.error e)
  | .ok networks =>
      match networks with
      | [] => none
      | n :: _ => some (.ok n.ID)

/-- Scan loop of `GetPrivateNetworkByName`: first network whose stringified
VLAN id or name matches. -/
def scanNetworks (networkName : String) : List Network → Option Network
  | [] => none
  | n :: rest =>
      if toString n.VlanID = networkName ∨ n.Name = networkName then some n
      else scanNetworks networkName rest

/-- `API.GetPrivateNetworkByName`: match by stringified VLAN id or by name
over the private network list; on no match, an error listing the valid
private network names. -/
def GetPrivateNetworkByName (env : Remote) (projectID networkName : String) :
    Except GoErr Network :=
  match GetNetworks env projectID true with
  | .error e => .error e
  | .ok networks =>
      match scanNetworks networkName networks with
      | some n => .ok n
      | none => .error (.errorf ("Invalid private network " ++ networkName ++
          ". List of valid private networks include " ++
          String.intercalate ", " (networks.map Network.Name)))

/-- `API.GetRegions`: GET `/cloud/project/{id}/region`. -/
def GetRegions (env : Remote) (projectID : String) : Except GoErr (List String) :=
  env.regions projectID

/-- `API.GetFlavors`: GET `/cloud/project/{id}/flavor?region={region}`. -/
def GetFlavors (env : Remote) (projectID region : String) :
    Except GoErr (List Flavor) :=
  env.flavors projectID region

/-- Scan loop of `GetFlavorByName`: skip non-Linux flavors, return the first
whose id or name equals the requested value. -/
def scanFlavors (flavorName : String) : List Flavor → Option Flavor
  | [] => none
  | f :: rest =>
      if f.OS ≠ "linux" then scanFlavors flavorName rest
      else if f.ID = flavorName ∨ f.Name = flavorName then some f
      else scanFlavors flavorName rest

/-- `API.GetFlavorByName`: single scan matching a Linux flavor by id or name. -/
def GetFlavorByName (env : Remote) (projectID region flavorName : String) :
    Except GoErr Flavor :=
  match GetFlavors env projectID region with
  | .error e => .error e
  | .ok flavors =>
      match scanFlavors flavorName flavors with
      | some f => .ok f
      | none => .error (.errorf ("Flavor '" ++ flavorName ++
          "' does not exist on OVH cloud. To find a list of available flavors, please visit " ++
          CustomerInterface))

/-- `API.GetImages`: GET `/cloud/project/{id}/image?osType=linux&region={region}`. -/
def GetImages (env : Remote) (projectID region : String) :
    Except GoErr (List Image) :=
  env.images projectID region

/-- Scan loop of `GetImageByName`: skip non-Linux images, return the first
whose id or name equals the requested value. -/
def scanImages (imageName : String) : List Image → Option Image
  | [] => none
  | i :: rest =>
      if i.OS ≠ "linux" then scanImages imageName rest
      else if i.ID = imageName ∨ i.Name = imageName then some i
      else scanImages imageName rest

/-- `API.GetImageByName`: single scan matching a Linux image by id or name. -/
def GetImageByName (env : Remote) (projectID region imageName : String) :
    Except GoErr Image :=
  match GetImages env projectID region with
  | .error e => .error e
  | .ok images =>
      match scanImages imageName images with
      | some i => .ok i
      | none => .error (.errorf ("Image '" ++ imageName ++
          "' does not exist on OVH cloud. To find a list of available images, please visit " ++
          CustomerInterface))

/-- `API.GetSshkeys`: GET `/cloud/project/{id}/sshkey?region={region}`. -/
def GetSshkeys (env : Remote) (projectID region : String) :
    Except GoErr (List Sshkey) :=
  env.sshkeysList projectID region

/-- Scan loop of `GetSshkeyByName`: first key whose id or name equals the
requested value (no OS filter). -/
def scanSshkeys (sshKeyName : String) : List Sshkey → Option Sshkey
  | [] => none
  | k :: rest =>
      if k.ID = sshKeyName ∨ k.Name = sshKeyName then some k
      else scanSshkeys sshKeyName rest

/-- `API.GetSshkeyByName`: single scan matching a key by id or name. -/
def GetSshkeyByName (env : Remote) (projectID region sshKeyName : String) :
    Except GoErr Sshkey :=
  match GetSshkeys env projectID region with
  | .error e => .error e
  | .ok sshkeys =>
      match scanSshkeys sshKeyName sshkeys with
      | some k => .ok k
      | none => .error (.errorf ("SSH key '" ++ sshKeyName ++
          "' does not exist on OVH cloud. To find a list of available ssh keys, please visit " ++
          CustomerInterface))

/-- `API.DeleteSshkey`, given the raw result of `a.client.Delete` on the key
URL: a 404 `*ovh.APIError` is converted to success, every other outcome is
returned unchanged. -/
def DeleteSshkey (clientResp : Option GoErr) : Option GoErr :=
  match clientResp with
  | some (.apiError 404 _) => none
  | r => r

/-- `API.DeleteInstance`, given the raw result of `a.client.Delete` on the
instance URL: a 404 `*ovh.APIError` is converted to success, every other
outcome is returned unchanged. -/
def DeleteInstance (clientResp : Option GoErr) : Option GoErr :=
  match clientResp with
  | some (.apiError 404 _) => none
  | r => r

/-- `API.GetInstance`, given the raw result of `a.client.Get` on the instance
URL.  On success the decoded instance is returned; on failure the instance
pointer stays nil (`none`).  The returned error is the literal `nil` of the
source (`return instance, nil`), so the second component never carries the
GET error. -/
def GetInstance (resp : Except GoErr Instance) : Option Instance × Option GoErr :=
  match resp with
  | .ok inst => (some inst, none)
  | .error _ => (none, none)

/-- The driver state: CLI parameters, resolved remote identifiers, and the
embedded `drivers.BaseDriver` fields the code uses (`MachineName`,
`StorePath`, `SSHKeyPath`, `SSHUser`, `IPAddress`). -/
structure Driver where
  ProjectName : String
  FlavorName : String
  RegionName : String
  PrivateNetworkName : String
  BillingPeriod : String
  Endpoint : String
  ProjectID : String
  FlavorID : String
  ImageID : String
  InstanceID : String
  KeyPairName : String
  KeyPairID : String
  NetworkIDs : List String
  ApplicationKey : String
  ApplicationSecret : String
  ConsumerKey : String
  MachineName : String
  StorePath : String
  SSHKeyPath : String
  SSHUser : String
  IPAddress : String
deriving DecidableEq, Repr

/-- The zero-valued driver the plugin starts from (`&Driver{BaseDriver:
&drivers.BaseDriver{SSHUser: DefaultSSHUserName, SSHPort: 22}}`): every
string field is the Go zero value `""`, `NetworkIDs` is nil, `SSHUser` is
the default user name. -/
def newDriver : Driver :=
  { ProjectName := "", FlavorName := "", RegionName := "",
    PrivateNetworkName := "", BillingPeriod := "", Endpoint := "",
    ProjectID := "", FlavorID := "", ImageID := "", InstanceID := "",
    KeyPairName := "", KeyPairID := "", NetworkIDs := [],
    ApplicationKey := "", ApplicationSecret := "", ConsumerKey := "",
    MachineName := "", StorePath := "", SSHKeyPath := "",
    SSHUser := "ubuntu", IPAddress := "" }

/-- The command-line/environment flag values consumed by
`SetConfigFromFlags` (swarm flags omitted: unused by the core). -/
structure Flags where
  applicationKey : String
  applicationSecret : String
  consumerKey : String
  endpoint : String
  project : String
  region : String
  flavor : String
  image : String
  privateNetwork : String
  sshKey : String
  sshUser : String
  billingPeriod : String

/-- `Driver.SetConfigFromFlags`: copy each flag into the corresponding
driver field (the image flag lands directly in `ImageID`, the ssh-key flag
in `KeyPairName`). -/
def SetConfigFromFlags (flags : Flags) (d : Driver) : Driver :=
  { d with
    ApplicationKey := flags.applicationKey,
    ApplicationSecret := flags.applicationSecret,
    ConsumerKey := flags.consumerKey,
    Endpoint := flags.endpoint,
    ProjectName := flags.project,
    RegionName := flags.region,
    FlavorName := flags.flavor,
    ImageID := flags.image,
    PrivateNetworkName := flags.privateNetwork,
    KeyPairName := flags.sshKey,
    BillingPeriod := flags.billingPeriod,
    SSHUser := flags.sshUser }

/-- `statusTimeout` constant. -/
def statusTimeout : Nat := 200

/-- Go `strings.HasPrefix(s, pre)`, character-exact. -/
def goStartsWith (s pre : String) : Bool :=
  pre.toList.isPrefixOf s.toList

/-- The character substitution of `sanitizeKeyPairName`. -/
def dotToUnderscore (c : Char) : Char :=
  if c = '.' then '_' else c

/-- `sanitizeKeyPairName`: `strings.Replace(s, ".", "_", -1)` — every dot
becomes an underscore. -/
def sanitizeKeyPairName (s : String) : String :=
  ⟨s.toList.map dotToUnderscore⟩

/-- `fmt.Sprintf("%s-%s", machineName, randomID)`: the generated key-pair
name before sanitization. -/
def genKeyPairName (machineName randomID : String) : String :=
  ⟨machineName.toList ++ '-' :: randomID.toList⟩

/-- Billing-period block of `PreCreateCheck`: reject any period other than
`"monthly"` or `"hourly"`. -/
def checkBilling (d : Driver) : Except GoErr Unit :=
  if d.BillingPeriod ≠ "monthly" ∧ d.BillingPeriod ≠ "hourly" then
    .error (.errorf ("Invalid billing period '" ++ d.BillingPeriod ++
      "'. Please select one of 'hourly', 'monthly'"))
  else .ok ()

/-- Helper for the ambiguous-project error: the name shown per project id —
the fetched project name, or the id itself when the fetch fails. -/
def projectNamesForErr (env : Remote) : List String → List String
  | [] => []
  | projectID :: rest =>
      (match GetProject env projectID with
       | .error _ => projectID
       | .ok p => p.Name) :: projectNamesForErr env rest

/-- Project block of `PreCreateCheck`: resolve by name when one was given;
otherwise take the sole project, or fail (empty list, or ambiguous list with
the candidate names). -/
def resolveProject (env : Remote) (d : Driver) : Except GoErr Driver :=
  if d.ProjectName ≠ "" then
    match GetProjectByName env d.ProjectName with
    | .error e => .error e
    | .ok project => .ok { d with ProjectID := project.ID }
  else
    match GetProjects env with
    | .error e => .error e
    | .ok projects =>
        match projects with
        | [projectID] => .ok { d with ProjectID := projectID }
        | [] => .error (.errorf ("No Cloud project could be found. To create a new one, please visit " ++
            CustomerInterface))
        | _ => .error (.errorf ("Multiple Cloud project found (" ++
            String.intercalate ", " (projectNamesForErr env projects) ++
            "), to select one, use '--ovh-project' option"))

/-- Region block of `PreCreateCheck`: the requested region must be in the
project's region list. -/
def checkRegion (env : Remote) (d : Driver) : Except GoErr Unit :=
  match GetRegions env d.ProjectID with
  | .error e => .error e
  | .ok regions =>
      if regions.contains d.RegionName then .ok ()
      else .error (.errorf ("Invalid region " ++ d.RegionName ++
        ". For a list of valid ovh regions, please visis " ++ CustomerInterface))

/-- Flavor block of `PreCreateCheck`. -/
def resolveFlavor (env : Remote) (d : Driver) : Except GoErr Driver :=
  match GetFlavorByName env d.ProjectID d.RegionName d.FlavorName with
  | .error e => .error e
  | .ok flavor => .ok { d with FlavorID := flavor.ID }

/-- Image block of `PreCreateCheck` (the image flag value sits in
`d.ImageID` and is overwritten with the resolved id). -/
def resolveImage (env : Remote) (d : Driver) : Except GoErr Driver :=
  match GetImageByName env d.ProjectID d.RegionName d.ImageID with
  | .error e => .error e
  | .ok image => .ok { d with ImageID := image.ID }

/-- Private-network block of `PreCreateCheck`: when a private network name
was supplied, append the resolved private network id and then the project's
public network id to `NetworkIDs`; otherwise leave the driver unchanged.
`none` propagates the panic of `GetPublicNetworkID` on an empty public
network list. -/
def resolveNetworks (env : Remote) (d : Driver) : Option (Except GoErr Driver) :=
  if d.PrivateNetworkName ≠ "" then
    match GetPrivateNetworkByName env d.ProjectID d.PrivateNetworkName with
    | .error e => some (.error e)
    | .ok privateNetwork =>
        match GetPublicNetworkID env d.ProjectID with
        | none => none
        | some (.error e) => some (.error e)
        | some (.ok publicNetworkID) =>
            some (.ok { d with
              NetworkIDs := (d.NetworkIDs ++ [privateNetwork.ID]) ++ [publicNetworkID] })
  else some (.ok d)

/-- `filepath.Join` of the key store path (`StorePath/sshkeys/KeyPairName`). -/
def keyPairPath (d : Driver) : String :=
  d.StorePath ++ "/sshkeys/" ++ d.KeyPairName

/-- `BaseDriver.ResolveStorePath(file)`: `StorePath/machines/MachineName/file`. -/
def resolveStorePath (d : Driver) (file : String) : String :=
  d.StorePath ++ "/machines/" ++ d.MachineName ++ "/" ++ file

/-- Key-pair block of `PreCreateCheck`: a non-empty key name uses the local
key file when present (else assumes an external key); an empty key name
generates `MachineName-randomID`, sanitizes it, and points the key path into
the machine store.  This block never fails. -/
def resolveKeyPair (env : Remote) (d : Driver) : Driver :=
  if d.KeyPairName.length ≠ 0 then
    if env.fileExistsAt (keyPairPath d) then { d with SSHKeyPath := keyPairPath d }
    else d
  else
    let name := sanitizeKeyPairName (genKeyPairName d.MachineName env.randomID)
    { d with KeyPairName := name, SSHKeyPath := resolveStorePath d name }

/-- `Driver.PreCreateCheck`: billing, project, region, flavor, image,
network and key-pair blocks in source order.  The outer `Option` models the
panic reachable through `GetPublicNetworkID`. -/
def PreCreateCheck (env : Remote) (d : Driver) : Option (Except GoErr Driver) :=
  match checkBilling d with
  | .error e => some (.error e)
  | .ok _ =>
  match resolveProject env d with
  | .error e => some (.error e)
  | .ok d1 =>
  match checkRegion env d1 with
  | .error e => some (.error e)
  | .ok _ =>
  match resolveFlavor env d1 with
  | .error e => some (.error e)
  | .ok d2 =>
  match resolveImage env d2 with
  | .error e => some (.error e)
  | .ok d3 =>
  match resolveNetworks env d3 with
  | none => none
  | some (.error e) => some (.error e)
  | some (.ok d4) => some (.ok (resolveKeyPair env d4))

/-- Outcome of `waitForInstanceStatus`. -/
inductive WaitResult where
  /-- The wait returned nil error; the captured instance is the last fetch. -/
  | ok (inst : Instance)
  /-- "Instance creation failed. Instance is in ERROR state". -/
  | stateError
  /-- An error propagated out of the poll closure. -/
  | remoteError (e : GoErr)
  /-- `mcnutils.WaitForSpecificOrError` exhausted its attempts. -/
  | timeoutErr (maxAttempts : Nat)
  /-- Nil-pointer dereference: `instance.Status` read with `instance == nil`. -/
  | crash
deriving DecidableEq, Repr

/-- One iteration budget of `waitForInstanceStatus`, polling response `i`
first.  Modelled from the spec for the external `mcnutils.WaitForSpecificOrError`
helper (not part of this repository): up to `maxAttempts` calls of the
closure, stopping on the closure's error, on its `true`, or — after the
budget — with a retries-exceeded error.  The closure body is translated from
the source: fetch via `GetInstance`, propagate a non-nil error, stop fatally
on `"ERROR"`, succeed on the target status, otherwise keep waiting. -/
def waitIter (target : String) (resps : Nat → Except GoErr Instance) :
    Nat → Nat → WaitResult
  | _, 0 => .timeoutErr (statusTimeout / 4)
  | i, fuel + 1 =>
      match GetInstance (resps i) with
      | (_, some e) => .remoteError e
      | (inst?, none) =>
          match inst? with
          | none => .crash
          | some inst =>
              if inst.Status = "ERROR" then .stateError
              else if inst.Status = target then .ok inst
              else waitIter target resps (i + 1) fuel

/-- `Driver.waitForInstanceStatus(status)`: poll `GetInstance` every 4
seconds for `statusTimeout / 4` attempts; `resps i` is the raw result of the
`i`-th GET. -/
def waitForInstanceStatus (target : String) (resps : Nat → Except GoErr Instance) :
    WaitResult :=
  waitIter target resps 0 (statusTimeout / 4)

/-- A remote mutation issued by `Remove`. -/
inductive Op where
  /-- DELETE `/cloud/project/{p}/instance/{i}`. -/
  | delInstance (projectID instanceID : String)
  /-- DELETE `/cloud/project/{p}/sshkey/{k}`. -/
  | delKey (projectID keyID : String)
deriving DecidableEq, Repr

/-- `Driver.Remove`: delete the instance when an instance id is recorded
(propagating any non-404 failure); keep the key pair when its name does not
start with the machine name; otherwise delete the key pair when a key id is
recorded.  `rInst` and `rKey` are the raw `client.Delete` results consumed
by `DeleteInstance` / `DeleteSshkey` if those calls are issued; the returned
list is the trace of issued deletions. -/
def Remove (rInst rKey : Option GoErr) (d : Driver) : List Op × Option GoErr :=
  let step1 : List Op × Option GoErr :=
    if d.InstanceID ≠ "" then
      ([Op.delInstance d.ProjectID d.InstanceID], DeleteInstance rInst)
    else ([], none)
  match step1 with
  | (ops1, some e) => (ops1, some e)
  | (ops1, none) =>
      if ¬ goStartsWith d.KeyPairName d.MachineName then (ops1, none)
      else if d.KeyPairID ≠ "" then
        (ops1 ++ [Op.delKey d.ProjectID d.KeyPairID], DeleteSshkey rKey)
      else (ops1, none)

/-- An environment model of the provider's DELETE endpoint (external to this
repository): deleting a present resource removes it, deleting an absent one
answers a 404 API error, as the wire protocol documents for not-found. -/
def remoteDelete (existing : List String) (id : String) :
    List String × Option GoErr :=
  if id ∈ existing then (existing.filter (fun x => x ≠ id), none)
  else (existing, some (.apiError 404 "Not Found"))

/-- One `DeleteInstance` call against the modelled remote: issue the DELETE
and run the client's 404 special-casing on the response. -/
def deleteInstanceCall (s : List String) (instanceID : String) :
    List String × Option GoErr :=
  let r := remoteDelete s instanceID
  (r.1, DeleteInstance r.2)

/-- Two successive `DeleteInstance` calls for the same id; the result is the
second call's state and error. -/
def deleteInstanceTwice (s : List String) (instanceID : String) :
    List String × Option GoErr :=
  let r1 := deleteInstanceCall s instanceID
  deleteInstanceCall r1.1 instanceID

/-- One `DeleteSshkey` call against the modelled remote. -/
def deleteSshkeyCall (s : List String) (keyID : String) :
    List String × Option GoErr :=
  let r := remoteDelete s keyID
  (r.1, DeleteSshkey r.2)

/-- Two successive `DeleteSshkey` calls for the same id. -/
def deleteSshkeyTwice (s : List String) (keyID : String) :
    List String × Option GoErr :=
  let r1 := deleteSshkeyCall s keyID
  deleteSshkeyCall r1.1 keyID

/-- A remote environment where every list is empty and every per-id fetch
fails; concrete instantiations override the fields they need. -/
def emptyRemote : Remote :=
  { projects := .ok [],
    project := fun _ => .error (.errorf "no such project"),
    regions := fun _ => .ok [],
    flavors := fun _ _ => .ok [],
    images := fun _ _ => .ok [],
    sshkeysList := fun _ _ => .ok [],
    networks := fun _ _ => .ok [],
    fileExistsAt := fun _ => false,
    randomID := "" }

/-- Concrete flavor fixture (a Linux `b2-7` in `GRA1`). -/
def flavorB27 : Flavor :=
  { Region := "GRA1", Name := "b2-7", ID := "f-9", OS := "linux",
    Vcpus := 2, MemoryGB := 7, DiskSpaceGB := 50, Type_ := "ovh.ssd" }

/-- Concrete image fixture (a Linux Ubuntu image in `GRA1`). -/
def imageUbuntu : Image :=
  { Region := "GRA1", Name := "Ubuntu 20.04", ID := "im-4", OS := "linux",
    CreationDate := "", Status := "active", MinDisk := 0, Visibility := "public" }

/-- Concrete private network fixture. -/
def privNet : Network :=
  { Status := "ACTIVE", Name := "vrack1", Type_ := "private", ID := "net-p",
    VlanID := 42 }

/-- Concrete public network fixture. -/
def pubNet : Network :=
  { Status := "ACTIVE", Name := "Ext-Net", Type_ := "public", ID := "net-0",
    VlanID := 0 }

/-- Concrete ssh key fixture. -/
def sshkeyEx : Sshkey :=
  { Name := "mykey", ID := "k-7", PublicKey := "ssh-rsa AAA",
    Fingerprint := "ff", Regions := ["GRA1"] }

/-- An instance fixture carrying a given remote status. -/
def instWithStatus (s : String) : Instance :=
  { Name := "m", ID := "i1", Status := s, Created := "", Region := "GRA1",
    NetworkParams := [], Image := imageUbuntu, Flavor := flavorB27,
    Sshkey := sshkeyEx, IPAddresses := [], MonthlyBilling := false }

/-- A Linux flavor whose NAME is the looked-up value `"v"` but whose id is
`"x"`. -/
def flavorNameV : Flavor :=
  { Region := "GRA1", Name := "v", ID := "x", OS := "linux",
    Vcpus := 1, MemoryGB := 2, DiskSpaceGB := 10, Type_ := "ovh.ssd" }

/-- A Linux flavor whose ID is the looked-up value `"v"`. -/
def flavorIdV : Flavor :=
  { Region := "GRA1", Name := "y", ID := "v", OS := "linux",
    Vcpus := 1, MemoryGB := 2, DiskSpaceGB := 10, Type_ := "ovh.ssd" }

/-- Environment whose flavor catalog lists `flavorNameV` before `flavorIdV`,
with one image and one ssh key. -/
def shadowEnv : Remote :=
  { emptyRemote with
    flavors := fun _ _ => .ok [flavorNameV, flavorIdV],
    images := fun _ _ => .ok [imageUbuntu],
    sshkeysList := fun _ _ => .ok [sshkeyEx] }

/-- Environment with a single project `pr-1` whose record is fetchable. -/
def projEnv : Remote :=
  { emptyRemote with
    projects := .ok ["pr-1"],
    project := fun pid =>
      .ok { Name := "acme", ID := pid, Unleash := false, CreationDate := "",
            OrderID := 0, Status := "ok" } }

/-- A full environment on which `PreCreateCheck` succeeds: one project, the
default region/flavor/image present, one private and one public network. -/
def fullEnv : Remote :=
  { emptyRemote with
    projects := .ok ["pr-1"],
    regions := fun _ => .ok ["GRA1"],
    flavors := fun _ _ => .ok [flavorB27],
    images := fun _ _ => .ok [imageUbuntu],
    networks := fun _ privateNet =>
      if privateNet then .ok [privNet] else .ok [pubNet],
    randomID := "abc123" }

/-- Flag set requesting the private network `vrack1` and an explicit key. -/
def flagsPrivate : Flags :=
  { applicationKey := "", applicationSecret := "", consumerKey := "",
    endpoint := "", project := "", region := "GRA1", flavor := "b2-7",
    image := "Ubuntu 20.04", privateNetwork := "vrack1", sshKey := "mykey",
    sshUser := "ubuntu", billingPeriod := "hourly" }

/-- Same flags without a private network. -/
def flagsPublic : Flags :=
  { flagsPrivate with privateNetwork := "" }

/-- Projects the driver out of a successful `PreCreateCheck` result. -/
def extractOk (r : Option (Except GoErr Driver)) : Driver :=
  match r with
  | some (.ok d) => d
  | _ => newDriver

/-- The driver produced by a successful validate with a private network. -/
def validatedPrivate : Driver :=
  extractOk (PreCreateCheck fullEnv (SetConfigFromFlags flagsPrivate newDriver))

/-- The driver produced by a successful validate without a private network. -/
def validatedPublic : Driver :=
  extractOk (PreCreateCheck fullEnv (SetConfigFromFlags flagsPublic newDriver))

/-- A machine named with a dot and no supplied ssh key, before validate. -/
def dottedDriver : Driver :=
  { newDriver with
    MachineName := "web.1", BillingPeriod := "hourly",
    RegionName := "GRA1", FlavorName := "b2-7", ImageID := "Ubuntu 20.04" }

/-- The dotted machine after a successful validate. -/
def validatedDotted : Driver :=
  extractOk (PreCreateCheck fullEnv dottedDriver)

/-- A driver state after create: recorded instance and key ids, key named
machine-name plus suffix. -/
def createdDriver : Driver :=
  { newDriver with
    ProjectID := "p1", InstanceID := "i1",
    MachineName := "mach", KeyPairName := "mach-abc", KeyPairID := "k1" }

/-- Poll responses `BUILDING, BUILDING, ACTIVE, ACTIVE, ...`. -/
def pollSeqActive : Nat → Except GoErr Instance := fun i =>
  if i = 0 then .ok (instWithStatus "BUILDING")
  else if i = 1 then .ok (instWithStatus "BUILDING")
  else .ok (instWithStatus "ACTIVE")

/-- Poll responses `BUILDING, ERROR, ERROR, ...`. -/
def pollSeqError : Nat → Except GoErr Instance := fun i =>
  if i = 0 then .ok (instWithStatus "BUILDING")
  else .ok (instWithStatus "ERROR")

/-- Poll responses stuck at `BUILDING`. -/
def pollSeqStuck : Nat → Except GoErr Instance := fun _ =>
  .ok (instWithStatus "BUILDING")

/-- Poll responses whose GET always fails. -/
def pollSeqFail : Nat → Except GoErr Instance := fun _ =>
  .error (.apiError 500 "Internal Server Error")

/-! Theorems. -/

/-- One poll that neither matches nor errors consumes one attempt. -/
theorem waitIter_step_continue (target : String)
    (resps : Nat → Except GoErr Instance) (i fuel : Nat) (inst : Instance)
    (h : resps i = .ok inst) (h1 : inst.Status ≠ "ERROR")
    (h2 : inst.Status ≠ target) :
    waitIter target resps i (fuel + 1) = waitIter target resps (i + 1) fuel := by
  simp [waitIter, GetInstance, h, h1, h2]

/-- A poll observing the target status stops with that instance. -/
theorem waitIter_step_match (target : String)
    (resps : Nat → Except GoErr Instance) (i fuel : Nat) (inst : Instance)
    (h : resps i = .ok inst) (h1 : inst.Status ≠ "ERROR")
    (h2 : inst.Status = target) :
    waitIter target resps i (fuel + 1) = .ok inst := by
  rw [h2] at h1
  simp [waitIter, GetInstance, h, h1, h2]

/-- A poll observing `ERROR` stops fatally. -/
theorem waitIter_step_error (target : String)
    (resps : Nat → Except GoErr Instance) (i fuel : Nat) (inst : Instance)
    (h : resps i = .ok inst) (h1 : inst.Status = "ERROR") :
    waitIter target resps i (fuel + 1) = .stateError := by
  simp [waitIter, GetInstance, h, h1]

/-- A poll whose GET fails dereferences the nil instance. -/
theorem waitIter_step_crash (target : String)
    (resps : Nat → Except GoErr Instance) (i fuel : Nat) (e : GoErr)
    (h : resps i = .error e) :
    waitIter target resps i (fuel + 1) = .crash := by
  simp [waitIter, GetInstance, h]

/-- If every poll in the budget keeps waiting, the loop times out. -/
theorem waitIter_timeout (target : String)
    (resps : Nat → Except GoErr Instance) (fuel i : Nat)
    (h : ∀ j, j < fuel → ∃ inst, resps (i + j) = .ok inst ∧
      inst.Status ≠ "ERROR" ∧ inst.Status ≠ target) :
    waitIter target resps i fuel = .timeoutErr (statusTimeout / 4) := by
  induction fuel generalizing i with
  | zero => rfl
  | succ n ih =>
      obtain ⟨inst, hr, h1, h2⟩ := h 0 (Nat.succ_pos n)
      rw [Nat.add_zero] at hr
      rw [waitIter_step_continue target resps i n inst hr h1 h2]
      apply ih
      intro j hj
      obtain ⟨inst', hr', h1', h2'⟩ := h (j + 1) (Nat.succ_lt_succ hj)
      refine ⟨inst', ?_, h1', h2'⟩
      rw [show i + 1 + j = i + (j + 1) by omega]
      exact hr'

/-- C2: the iteration budget is `statusTimeout / 4 = 50` polls; responses
`BUILDING, BUILDING, ACTIVE` make the wait succeed after the third poll
with the third poll's instance (whatever any later responses would be);
`BUILDING, ERROR` makes it fail fatally on the second poll (later responses
are never consulted — the statement holds for every continuation); and a
full budget of `BUILDING` responses ends in the retries-exceeded timeout. -/
theorem create_polling_spec :
    statusTimeout / 4 = 50 ∧
    (∀ (resps : Nat → Except GoErr Instance) (i1 i2 i3 : Instance),
      resps 0 = .ok i1 → resps 1 = .ok i2 → resps 2 = .ok i3 →
      i1.Status = "BUILDING" → i2.Status = "BUILDING" → i3.Status = "ACTIVE" →
      waitForInstanceStatus "ACTIVE" resps = .ok i3) ∧
    (∀ (resps : Nat → Except GoErr Instance) (i1 i2 : Instance),
      resps 0 = .ok i1 → resps 1 = .ok i2 →
      i1.Status = "BUILDING" → i2.Status = "ERROR" →
      waitForInstanceStatus "ACTIVE" resps = .stateError) ∧
    (∀ resps : Nat → Except GoErr Instance,
      (∀ j, j < statusTimeout / 4 → ∃ inst, resps j = .ok inst ∧
        inst.Status = "BUILDING") →
      waitForInstanceStatus "ACTIVE" resps = .timeoutErr (statusTimeout / 4)) := by
  refine ⟨rfl, ?_, ?_, ?_⟩
  · intro resps i1 i2 i3 h0 h1 h2 hs1 hs2 hs3
    unfold waitForInstanceStatus
    show waitIter "ACTIVE" resps 0 (49 + 1) = .ok i3
    rw [waitIter_step_continue "ACTIVE" resps 0 49 i1 h0
      (by rw [hs1]; decide) (by rw [hs1]; decide)]
    show waitIter "ACTIVE" resps 1 (48 + 1) = .ok i3
    rw [waitIter_step_continue "ACTIVE" resps 1 48 i2 h1
      (by rw [hs2]; decide) (by rw [hs2]; decide)]
    show waitIter "ACTIVE" resps 2 (47 + 1) = .ok i3
    exact waitIter_step_match "ACTIVE" resps 2 47 i3 h2
      (by rw [hs3]; decide) hs3
  · intro resps i1 i2 h0 h1 hs1 hs2
    unfold waitForInstanceStatus
    show waitIter "ACTIVE" resps 0 (49 + 1) = .stateError
    rw [waitIter_step_continue "ACTIVE" resps 0 49 i1 h0
      (by rw [hs1]; decide) (by rw [hs1]; decide)]
    show waitIter "ACTIVE" resps 1 (48 + 1) = .stateError
    exact waitIter_step_error "ACTIVE" resps 1 48 i2 h1 hs2
  · intro resps h
    unfold waitForInstanceStatus
    apply waitIter_timeout
    intro j hj
    obtain ⟨inst, hr, hs⟩ := h j hj
    refine ⟨inst, ?_, by rw [hs]; decide, by rw [hs]; decide⟩
    rw [Nat.zero_add]
    exact hr

/-- C2 witness: the three concrete response sequences produce success with
the third instance, the fatal stop, and the timeout. -/
theorem create_polling_spec_witness :
    waitForInstanceStatus "ACTIVE" pollSeqActive = .ok (instWithStatus "ACTIVE") ∧
    waitForInstanceStatus "ACTIVE" pollSeqError = .stateError ∧
    waitForInstanceStatus "ACTIVE" pollSeqStuck = .timeoutErr (statusTimeout / 4) :=
  ⟨create_polling_spec.2.1 pollSeqActive _ _ _ rfl rfl rfl rfl rfl rfl,
   create_polling_spec.2.2.1 pollSeqError _ _ rfl rfl rfl rfl,
   create_polling_spec.2.2.2 pollSeqStuck
     (fun _ _ => ⟨instWithStatus "BUILDING", rfl, rfl⟩)⟩

/-- C8: the error branch of the polling closure is unreachable —
`GetInstance` returns a nil error on every response — and on a failing GET
the closure goes on to read `instance.Status` from a nil instance, so the
poll step crashes rather than propagating the fetch failure. -/
theorem polling_error_branch_unreachable :
    (∀ resp, (GetInstance resp).2 = none) ∧
    (∀ (target : String) (resps : Nat → Except GoErr Instance) (e : GoErr),
      resps 0 = .error e → waitForInstanceStatus target resps = .crash) := by
  constructor
  · intro resp
    cases resp <;> rfl
  · intro target resps e h
    unfold waitForInstanceStatus
    show waitIter target resps 0 (49 + 1) = .crash
    exact waitIter_step_crash target resps 0 49 e h

/-- C8 witness: a permanently failing GET yields a nil error from
`GetInstance` and crashes the wait. -/
theorem polling_error_branch_unreachable_witness :
    (GetInstance (pollSeqFail 0)).2 = none ∧
    waitForInstanceStatus "ACTIVE" pollSeqFail = .crash :=
  ⟨polling_error_branch_unreachable.1 (pollSeqFail 0),
   polling_error_branch_unreachable.2 "ACTIVE" pollSeqFail
     (.apiError 500 "Internal Server Error") rfl⟩

/-- C1: `GetInstance` does not propagate the GET error.  At every failing
input — the underlying GET returning any error `e`, such as a provider
`RemoteError` with its status code and message — `GetInstance` returns a nil
instance together with a nil error (`return instance, nil`), contradicting
the specified behavior of failing with the provider's error. -/
theorem GetInstance_swallows_remote_error (e : GoErr) :
    GetInstance (.error e) = (none, none) := rfl

/-- C6: deletes are idempotent.  The 404 `*ovh.APIError` response is
converted to success by both `DeleteInstance` and `DeleteSshkey`, and
against a remote whose DELETE answers 404 on an absent resource, two
successive deletes of the same instance or key never fail on the second
call. -/
theorem delete_notfound_idempotent :
    (∀ m, DeleteInstance (some (.apiError 404 m)) = none) ∧
    (∀ m, DeleteSshkey (some (.apiError 404 m)) = none) ∧
    (∀ s id, (deleteInstanceTwice s id).2 = none) ∧
    (∀ s id, (deleteSshkeyTwice s id).2 = none) := by
  refine ⟨fun m => rfl, fun m => rfl, ?_, ?_⟩ <;>
  · intro s id
    by_cases h : id ∈ s <;>
      simp [deleteInstanceTwice, deleteSshkeyTwice, deleteInstanceCall,
        deleteSshkeyCall, remoteDelete, DeleteInstance, DeleteSshkey, h,
        List.mem_filter]

/-- C6 witness: deleting the sole instance `i1` twice, and deleting the
absent key `k1` twice, both end with a nil error on the second call. -/
theorem delete_notfound_idempotent_witness :
    DeleteInstance (some (.apiError 404 "Not Found")) = none ∧
    (deleteInstanceTwice ["i1"] "i1").2 = none ∧
    (deleteSshkeyTwice [] "k1").2 = none :=
  ⟨delete_notfound_idempotent.1 "Not Found",
   delete_notfound_idempotent.2.2.1 ["i1"] "i1",
   delete_notfound_idempotent.2.2.2 [] "k1"⟩

/-- C7: the billing-period validation of `PreCreateCheck` accepts exactly
`"hourly"` and `"monthly"`: `checkBilling` succeeds iff the period is one of
the two strings (so case-variants like `"Hourly"` and the empty string are
rejected), and any driver passing the whole `PreCreateCheck` has one of the
two periods. -/
theorem billing_period_validation_exact :
    (∀ d : Driver, checkBilling d = .ok () ↔
      d.BillingPeriod = "hourly" ∨ d.BillingPeriod = "monthly") ∧
    (∀ (env : Remote) (d d' : Driver), PreCreateCheck env d = some (.ok d') →
      d.BillingPeriod = "hourly" ∨ d.BillingPeriod = "monthly") := by
  have hiff : ∀ d : Driver, checkBilling d = .ok () ↔
      d.BillingPeriod = "hourly" ∨ d.BillingPeriod = "monthly" := by
    intro d
    constructor
    · intro hc
      by_contra hn
      push_neg at hn
      unfold checkBilling at hc
      rw [if_pos ⟨hn.2, hn.1⟩] at hc
      exact Except.noConfusion hc
    · intro hd
      unfold checkBilling
      rcases hd with h | h
      · rw [if_neg (fun hc => hc.2 h)]
      · rw [if_neg (fun hc => hc.1 h)]
  refine ⟨hiff, ?_⟩
  intro env d d' h
  cases hc : checkBilling d with
  | error e =>
      unfold PreCreateCheck at h
      rw [hc] at h
      exact absurd h (by simp)
  | ok u =>
      cases u
      exact (hiff d).mp hc

/-- C7 witness: `"hourly"` is accepted, `"Hourly"` and `""` are rejected. -/
theorem billing_period_validation_exact_witness :
    checkBilling { newDriver with BillingPeriod := "hourly" } = .ok () ∧
    checkBilling { newDriver with BillingPeriod := "Hourly" } ≠ .ok () ∧
    checkBilling { newDriver with BillingPeriod := "" } ≠ .ok () := by
  refine ⟨(billing_period_validation_exact.1 _).mpr (Or.inl rfl), ?_, ?_⟩
  · intro h
    rcases (billing_period_validation_exact.1 _).mp h with hc | hc <;>
      exact absurd hc (by decide)
  · intro h
    rcases (billing_period_validation_exact.1 _).mp h with hc | hc <;>
      exact absurd hc (by decide)

/-- C10: `GetPublicNetworkID` blindly indexes the first element of the
public network list: an empty successful list is an index-out-of-range
panic (`none`), a non-empty list yields the head's id, and a failing GET
propagates its error — the operation is total only when the project has at
least one public network. -/
theorem GetPublicNetworkID_head_unconditional :
    (∀ (env : Remote) (pid : String), GetNetworks env pid false = .ok [] →
      GetPublicNetworkID env pid = none) ∧
    (∀ (env : Remote) (pid : String) (n : Network) (rest : List Network),
      GetNetworks env pid false = .ok (n :: rest) →
      GetPublicNetworkID env pid = some (.ok n.ID)) ∧
    (∀ (env : Remote) (pid : String) (e : GoErr),
      GetNetworks env pid false = .error e →
      GetPublicNetworkID env pid = some (.error e)) := by
  refine ⟨?_, ?_, ?_⟩
  · intro env pid h
    unfold GetPublicNetworkID
    rw [h]
  · intro env pid n rest h
    unfold GetPublicNetworkID
    rw [h]
  · intro env pid e h
    unfold GetPublicNetworkID
    rw [h]

/-- C10 witness: against the empty environment the read panics, against the
full environment it returns the public network's id. -/
theorem GetPublicNetworkID_head_unconditional_witness :
    GetPublicNetworkID emptyRemote "pr-1" = none ∧
    GetPublicNetworkID fullEnv "pr-1" = some (.ok "net-0") :=
  ⟨GetPublicNetworkID_head_unconditional.1 emptyRemote "pr-1" rfl,
   GetPublicNetworkID_head_unconditional.2.1 fullEnv "pr-1" pubNet [] rfl⟩

/-- A listed project id makes the id loop return that project's fetch. -/
theorem findProjectFast_mem (env : Remote) (nm : String) (ps : List String)
    (hmem : nm ∈ ps) : findProjectFast env nm ps = some (GetProject env nm) := by
  induction ps with
  | nil => cases hmem
  | cons a l ih =>
      by_cases ha : a = nm
      · subst ha
        simp [findProjectFast]
      · have hl : nm ∈ l := by
          cases hmem with
          | head => exact absurd rfl ha
          | tail _ h => exact h
        simp [findProjectFast, ha, ih hl]

/-- Soundness of the flavor scan: a hit is a listed Linux flavor matching
the value by id or name. -/
theorem scanFlavors_sound (nm : String) (fs : List Flavor) (f : Flavor)
    (h : scanFlavors nm fs = some f) :
    f ∈ fs ∧ f.OS = "linux" ∧ (f.ID = nm ∨ f.Name = nm) := by
  induction fs with
  | nil => cases h
  | cons g l ih =>
      unfold scanFlavors at h
      split at h
      · obtain ⟨hm, ho, hn⟩ := ih h
        exact ⟨List.mem_cons_of_mem g hm, ho, hn⟩
      · split at h
        · cases h
          rename_i hos _
          exact ⟨List.mem_cons_self _ _, not_not.mp hos, by assumption⟩
        · obtain ⟨hm, ho, hn⟩ := ih h
          exact ⟨List.mem_cons_of_mem g hm, ho, hn⟩

/-- Soundness of the image scan. -/
theorem scanImages_sound (nm : String) (is : List Image) (i : Image)
    (h : scanImages nm is = some i) :
    i ∈ is ∧ i.OS = "linux" ∧ (i.ID = nm ∨ i.Name = nm) := by
  induction is with
  | nil => cases h
  | cons g l ih =>
      unfold scanImages at h
      split at h
      · obtain ⟨hm, ho, hn⟩ := ih h
        exact ⟨List.mem_cons_of_mem g hm, ho, hn⟩
      · split at h
        · cases h
          rename_i hos _
          exact ⟨List.mem_cons_self _ _, not_not.mp hos, by assumption⟩
        · obtain ⟨hm, ho, hn⟩ := ih h
          exact ⟨List.mem_cons_of_mem g hm, ho, hn⟩

/-- Soundness of the ssh-key scan. -/
theorem scanSshkeys_sound (nm : String) (ks : List Sshkey) (k : Sshkey)
    (h : scanSshkeys nm ks = some k) :
    k ∈ ks ∧ (k.ID = nm ∨ k.Name = nm) := by
  induction ks with
  | nil => cases h
  | cons g l ih =>
      unfold scanSshkeys at h
      split at h
      · cases h
        exact ⟨List.mem_cons_self _ _, by assumption⟩
      · obtain ⟨hm, hn⟩ := ih h
        exact ⟨List.mem_cons_of_mem g hm, hn⟩

/-- C3 counterexample: in a catalog where an earlier Linux flavor's NAME is
`"v"` and a later Linux flavor's ID is `"v"`, looking up `"v"` returns the
earlier flavor, whose id differs from the supplied value — there is no id
fast path for flavors. -/
theorem lookup_id_fast_path_counterexample :
    GetFlavors shadowEnv "pr-1" "GRA1" = .ok [flavorNameV, flavorIdV] ∧
    flavorIdV.ID = "v" ∧
    GetFlavorByName shadowEnv "pr-1" "GRA1" "v" = .ok flavorNameV ∧
    flavorNameV.ID ≠ "v" := by
  refine ⟨rfl, rfl, rfl, ?_⟩
  decide

/-- C3 amended: only the project lookup has an id fast path — a value equal
to a listed project id yields exactly `GetProject` of that id, with no
name-based scan.  The flavor, image and ssh-key lookups are a single linear
scan matching by id OR name (restricted to Linux entries for flavor and
image): any returned entity is a catalog member matching the value by id or
name, but not necessarily the entity whose id equals the value, since an
earlier name match shadows a later id match. -/
theorem lookup_id_or_name_characterization :
    (∀ (env : Remote) (nm : String) (ps : List String),
      GetProjects env = .ok ps → nm ∈ ps →
      GetProjectByName env nm = GetProject env nm) ∧
    (∀ (env : Remote) (pid rg nm : String) (fs : List Flavor) (f : Flavor),
      GetFlavors env pid rg = .ok fs → GetFlavorByName env pid rg nm = .ok f →
      f ∈ fs ∧ f.OS = "linux" ∧ (f.ID = nm ∨ f.Name = nm)) ∧
    (∀ (env : Remote) (pid rg nm : String) (is : List Image) (i : Image),
      GetImages env pid rg = .ok is → GetImageByName env pid rg nm = .ok i →
      i ∈ is ∧ i.OS = "linux" ∧ (i.ID = nm ∨ i.Name = nm)) ∧
    (∀ (env : Remote) (pid rg nm : String) (ks : List Sshkey) (k : Sshkey),
      GetSshkeys env pid rg = .ok ks → GetSshkeyByName env pid rg nm = .ok k →
      k ∈ ks ∧ (k.ID = nm ∨ k.Name = nm)) := by
  refine ⟨?_, ?_, ?_, ?_⟩
  · intro env nm ps hps hmem
    simp only [GetProjectByName, hps, findProjectFast_mem env nm ps hmem]
  · intro env pid rg nm fs f h1 h2
    simp only [GetFlavorByName, h1] at h2
    cases hscan : scanFlavors nm fs with
    | none => rw [hscan] at h2; simp at h2
    | some g =>
        rw [hscan] at h2
        simp only [Except.ok.injEq] at h2
        subst h2
        exact scanFlavors_sound nm fs g hscan
  · intro env pid rg nm is i h1 h2
    simp only [GetImageByName, h1] at h2
    cases hscan : scanImages nm is with
    | none => rw [hscan] at h2; simp at h2
    | some g =>
        rw [hscan] at h2
        simp only [Except.ok.injEq] at h2
        subst h2
        exact scanImages_sound nm is g hscan
  · intro env pid rg nm ks k h1 h2
    simp only [GetSshkeyByName, h1] at h2
    cases hscan : scanSshkeys nm ks with
    | none => rw [hscan] at h2; simp at h2
    | some g =>
        rw [hscan] at h2
        simp only [Except.ok.injEq] at h2
        subst h2
        exact scanSshkeys_sound nm ks g hscan

/-- C3 amended witness: the project fast path at the listed id `pr-1`, and
the scan characterizations at the concrete shadow catalog. -/
theorem lookup_id_or_name_characterization_witness :
    GetProjectByName projEnv "pr-1" = GetProject projEnv "pr-1" ∧
    (flavorNameV ∈ [flavorNameV, flavorIdV] ∧ flavorNameV.OS = "linux" ∧
      (flavorNameV.ID = "v" ∨ flavorNameV.Name = "v")) ∧
    (imageUbuntu ∈ [imageUbuntu] ∧ imageUbuntu.OS = "linux" ∧
      (imageUbuntu.ID = "Ubuntu 20.04" ∨ imageUbuntu.Name = "Ubuntu 20.04")) ∧
    (sshkeyEx ∈ [sshkeyEx] ∧ (sshkeyEx.ID = "k-7" ∨ sshkeyEx.Name = "k-7")) :=
  ⟨lookup_id_or_name_characterization.1 projEnv "pr-1" ["pr-1"] rfl
     (List.mem_singleton.mpr rfl),
   lookup_id_or_name_characterization.2.1 shadowEnv "pr-1" "GRA1" "v"
     [flavorNameV, flavorIdV] flavorNameV rfl rfl,
   lookup_id_or_name_characterization.2.2.1 shadowEnv "pr-1" "GRA1"
     "Ubuntu 20.04" [imageUbuntu] imageUbuntu rfl rfl,
   lookup_id_or_name_characterization.2.2.2 shadowEnv "pr-1" "GRA1" "k-7"
     [sshkeyEx] sshkeyEx rfl rfl⟩

/-- When the key name does not start with the machine name, `Remove` never
issues a key deletion. -/
theorem Remove_no_delKey_without_prefix (rInst rKey : Option GoErr) (d : Driver)
    (h : goStartsWith d.KeyPairName d.MachineName = false) :
    ∀ p k, Op.delKey p k ∉ (Remove rInst rKey d).1 := by
  intro p k
  by_cases hI : d.InstanceID ≠ "" <;>
    cases hD : DeleteInstance rInst <;>
      simp [Remove, hI, hD, h]

/-- A recorded instance id always makes `Remove` issue the instance DELETE. -/
theorem Remove_delInstance_issued (rInst rKey : Option GoErr) (d : Driver)
    (hI : d.InstanceID ≠ "") :
    Op.delInstance d.ProjectID d.InstanceID ∈ (Remove rInst rKey d).1 := by
  cases hD : DeleteInstance rInst <;>
    by_cases hP : goStartsWith d.KeyPairName d.MachineName <;>
      by_cases hK : d.KeyPairID ≠ "" <;>
        simp [Remove, hI, hD, hP, hK]

/-- With the prefix heuristic satisfied, a recorded key id, and a successful
(or 404-forgiven) instance deletion, `Remove` issues the key DELETE and
returns its 404-forgiving result. -/
theorem Remove_delKey_issued (rInst rKey : Option GoErr) (d : Driver)
    (hP : goStartsWith d.KeyPairName d.MachineName = true)
    (hK : d.KeyPairID ≠ "") (hD : DeleteInstance rInst = none) :
    Op.delKey d.ProjectID d.KeyPairID ∈ (Remove rInst rKey d).1 ∧
    (Remove rInst rKey d).2 = DeleteSshkey rKey := by
  by_cases hI : d.InstanceID ≠ "" <;>
    simp [Remove, hI, hP, hK, hD]

/-- C5: with an instance id recorded, `Remove` issues the instance deletion
(whose 404 is forgiven); when the key-pair name does not start with the
machine's own name no key deletion is ever issued; otherwise, with a key id
recorded and the instance deletion treated as success, the key-pair deletion
is issued (with its own 404 forgiven). -/
theorem Remove_instance_then_key_heuristic (rInst rKey : Option GoErr)
    (d : Driver) :
    (d.InstanceID ≠ "" →
      Op.delInstance d.ProjectID d.InstanceID ∈ (Remove rInst rKey d).1) ∧
    (goStartsWith d.KeyPairName d.MachineName = false →
      ∀ p k, Op.delKey p k ∉ (Remove rInst rKey d).1) ∧
    (goStartsWith d.KeyPairName d.MachineName = true → d.KeyPairID ≠ "" →
      DeleteInstance rInst = none →
      Op.delKey d.ProjectID d.KeyPairID ∈ (Remove rInst rKey d).1 ∧
      (Remove rInst rKey d).2 = DeleteSshkey rKey) ∧
    (∀ m, DeleteInstance (some (.apiError 404 m)) = none ∧
      DeleteSshkey (some (.apiError 404 m)) = none) :=
  ⟨fun hI => Remove_delInstance_issued rInst rKey d hI,
   fun h => Remove_no_delKey_without_prefix rInst rKey d h,
   fun hP hK hD => Remove_delKey_issued rInst rKey d hP hK hD,
   fun _ => ⟨rfl, rfl⟩⟩

/-- C5 witness: on the created driver with a remote answering 404 for the
instance and success for the key, both deletions are issued and the removal
succeeds; with a pre-existing key name no key deletion is issued. -/
theorem Remove_instance_then_key_heuristic_witness :
    Op.delInstance "p1" "i1" ∈
      (Remove (some (.apiError 404 "gone")) none createdDriver).1 ∧
    Op.delKey "p1" "k1" ∈
      (Remove (some (.apiError 404 "gone")) none createdDriver).1 ∧
    (Remove (some (.apiError 404 "gone")) none createdDriver).2 = none ∧
    (∀ p k, Op.delKey p k ∉
      (Remove none none { createdDriver with KeyPairName := "imported" }).1) :=
  ⟨(Remove_instance_then_key_heuristic (some (.apiError 404 "gone")) none
      createdDriver).1 (by decide),
   ((Remove_instance_then_key_heuristic (some (.apiError 404 "gone")) none
      createdDriver).2.2.1 (by decide) (by decide) rfl).1,
   ((Remove_instance_then_key_heuristic (some (.apiError 404 "gone")) none
      createdDriver).2.2.1 (by decide) (by decide) rfl).2.trans rfl,
   (Remove_instance_then_key_heuristic none none
      { createdDriver with KeyPairName := "imported" }).2.1 (by decide)⟩

/-- The project block only writes `ProjectID`. -/
theorem resolveProject_fields (env : Remote) (d d' : Driver)
    (h : resolveProject env d = .ok d') :
    d'.PrivateNetworkName = d.PrivateNetworkName ∧
    d'.NetworkIDs = d.NetworkIDs ∧
    d'.MachineName = d.MachineName ∧
    d'.KeyPairName = d.KeyPairName := by
  unfold resolveProject at h
  by_cases hn : d.ProjectName ≠ ""
  · rw [if_pos hn] at h
    cases hg : GetProjectByName env d.ProjectName with
    | error e => rw [hg] at h; simp at h
    | ok p =>
        rw [hg] at h
        simp only [Except.ok.injEq] at h
        subst h
        exact ⟨rfl, rfl, rfl, rfl⟩
  · rw [if_neg hn] at h
    cases hg : GetProjects env with
    | error e => rw [hg] at h; simp at h
    | ok ps =>
        rw [hg] at h
        cases ps with
        | nil => simp at h
        | cons a l =>
            cases l with
            | nil =>
                simp only [Except.ok.injEq] at h
                subst h
                exact ⟨rfl, rfl, rfl, rfl⟩
            | cons b l2 => simp at h

/-- The flavor block only writes `FlavorID`. -/
theorem resolveFlavor_fields (env : Remote) (d d' : Driver)
    (h : resolveFlavor env d = .ok d') :
    d'.PrivateNetworkName = d.PrivateNetworkName ∧
    d'.NetworkIDs = d.NetworkIDs ∧
    d'.MachineName = d.MachineName ∧
    d'.KeyPairName = d.KeyPairName ∧
    d'.ProjectID = d.ProjectID := by
  unfold resolveFlavor at h
  cases hg : GetFlavorByName env d.ProjectID d.RegionName d.FlavorName with
  | error e => rw [hg] at h; simp at h
  | ok f =>
      rw [hg] at h
      simp only [Except.ok.injEq] at h
      subst h
      exact ⟨rfl, rfl, rfl, rfl, rfl⟩

/-- The image block only writes `ImageID`. -/
theorem resolveImage_fields (env : Remote) (d d' : Driver)
    (h : resolveImage env d = .ok d') :
    d'.PrivateNetworkName = d.PrivateNetworkName ∧
    d'.NetworkIDs = d.NetworkIDs ∧
    d'.MachineName = d.MachineName ∧
    d'.KeyPairName = d.KeyPairName ∧
    d'.ProjectID = d.ProjectID := by
  unfold resolveImage at h
  cases hg : GetImageByName env d.ProjectID d.RegionName d.ImageID with
  | error e => rw [hg] at h; simp at h
  | ok i =>
      rw [hg] at h
      simp only [Except.ok.injEq] at h
      subst h
      exact ⟨rfl, rfl, rfl, rfl, rfl⟩

/-- The network block preserves everything but `NetworkIDs`, and appends the
resolved private id then the public id exactly when a private network name
was supplied. -/
theorem resolveNetworks_ok (env : Remote) (d d' : Driver)
    (h : resolveNetworks env d = some (.ok d')) :
    d'.MachineName = d.MachineName ∧
    d'.KeyPairName = d.KeyPairName ∧
    d'.ProjectID = d.ProjectID ∧
    d'.PrivateNetworkName = d.PrivateNetworkName ∧
    (d.PrivateNetworkName ≠ "" → ∃ net pub,
      GetPrivateNetworkByName env d.ProjectID d.PrivateNetworkName = .ok net ∧
      GetPublicNetworkID env d.ProjectID = some (.ok pub) ∧
      d'.NetworkIDs = (d.NetworkIDs ++ [net.ID]) ++ [pub]) ∧
    (d.PrivateNetworkName = "" → d'.NetworkIDs = d.NetworkIDs) := by
  unfold resolveNetworks at h
  by_cases hp : d.PrivateNetworkName ≠ ""
  · rw [if_pos hp] at h
    cases hg : GetPrivateNetworkByName env d.ProjectID d.PrivateNetworkName with
    | error e => rw [hg] at h; simp at h
    | ok net =>
        rw [hg] at h
        cases hpub : GetPublicNetworkID env d.ProjectID with
        | none => rw [hpub] at h; simp at h
        | some r =>
            cases r with
            | error e => rw [hpub] at h; simp at h
            | ok pub =>
                rw [hpub] at h
                simp only [Option.some.injEq, Except.ok.injEq] at h
                subst h
                exact ⟨rfl, rfl, rfl, rfl,
                  fun _ => ⟨net, pub, rfl, rfl, rfl⟩,
                  fun hc => absurd hc hp⟩
  · rw [if_neg hp] at h
    simp only [Option.some.injEq, Except.ok.injEq] at h
    subst h
    exact ⟨rfl, rfl, rfl, rfl, fun hc => absurd hc hp, fun _ => rfl⟩

/-- The key-pair block never touches the ids resolved before it. -/
theorem resolveKeyPair_fields (env : Remote) (d : Driver) :
    (resolveKeyPair env d).NetworkIDs = d.NetworkIDs ∧
    (resolveKeyPair env d).ProjectID = d.ProjectID ∧
    (resolveKeyPair env d).MachineName = d.MachineName ∧
    (resolveKeyPair env d).PrivateNetworkName = d.PrivateNetworkName := by
  unfold resolveKeyPair
  by_cases hk : d.KeyPairName.length ≠ 0
  · rw [if_pos hk]
    by_cases hf : env.fileExistsAt (keyPairPath d) = true
    · rw [if_pos hf]
      exact ⟨rfl, rfl, rfl, rfl⟩
    · rw [if_neg hf]
      exact ⟨rfl, rfl, rfl, rfl⟩
  · rw [if_neg hk]
    exact ⟨rfl, rfl, rfl, rfl⟩

/-- With no key name supplied, the key-pair block stores the sanitized
generated name. -/
theorem resolveKeyPair_generated (env : Remote) (d : Driver)
    (h : d.KeyPairName = "") :
    (resolveKeyPair env d).KeyPairName =
      sanitizeKeyPairName (genKeyPairName d.MachineName env.randomID) := by
  unfold resolveKeyPair
  rw [h]
  rw [if_neg (by decide)]

/-- A successful `PreCreateCheck` decomposes into its successful blocks. -/
theorem PreCreateCheck_ok_decomp (env : Remote) (d d' : Driver)
    (h : PreCreateCheck env d = some (.ok d')) :
    ∃ d1 d2 d3 d4,
      resolveProject env d = .ok d1 ∧
      resolveFlavor env d1 = .ok d2 ∧
      resolveImage env d2 = .ok d3 ∧
      resolveNetworks env d3 = some (.ok d4) ∧
      d' = resolveKeyPair env d4 := by
  unfold PreCreateCheck at h
  cases hb : checkBilling d with
  | error e => simp [hb] at h
  | ok u =>
  cases hp : resolveProject env d with
  | error e => simp [hb, hp] at h
  | ok d1 =>
  cases hr : checkRegion env d1 with
  | error e => simp [hb, hp, hr] at h
  | ok u2 =>
  cases hf : resolveFlavor env d1 with
  | error e => simp [hb, hp, hr, hf] at h
  | ok d2 =>
  cases hi : resolveImage env d2 with
  | error e => simp [hb, hp, hr, hf, hi] at h
  | ok d3 =>
  cases hn : resolveNetworks env d3 with
  | none => simp [hb, hp, hr, hf, hi, hn] at h
  | some r =>
  cases r with
  | error e => simp [hb, hp, hr, hf, hi, hn] at h
  | ok d4 =>
  simp only [hb, hp, hr, hf, hi, hn, Option.some.injEq,
    Except.ok.injEq] at h
  exact ⟨d1, d2, d3, d4, rfl, hf, hi, hn, h.symm⟩

/-- Replacing dots by underscores in any extension of a dotted name breaks
the prefix: the first dot of the name meets an underscore in the image. -/
theorem isPrefixOf_map_dotToUnderscore (l rest : List Char) (hdot : '.' ∈ l) :
    l.isPrefixOf ((l ++ rest).map dotToUnderscore) = false := by
  induction l with
  | nil => cases hdot
  | cons c l' ih =>
      by_cases hc : c = '.'
      · subst hc
        simp [List.isPrefixOf, dotToUnderscore]
      · have hl : '.' ∈ l' := by
          cases hdot with
          | head => exact absurd rfl hc
          | tail _ hmem => exact hmem
        have ihm := ih hl
        rw [List.map_append] at ihm
        simp [List.isPrefixOf, dotToUnderscore, hc, ihm]

/-- The sanitized generated key name of a dotted machine name never starts
with the machine name. -/
theorem goStartsWith_sanitized_generated (machine rid : String)
    (hdot : '.' ∈ machine.toList) :
    goStartsWith (sanitizeKeyPairName (genKeyPairName machine rid)) machine =
      false := by
  show machine.toList.isPrefixOf
    ((machine.toList ++ '-' :: rid.toList).map dotToUnderscore) = false
  exact isPrefixOf_map_dotToUnderscore machine.toList ('-' :: rid.toList) hdot

/-- C9: when the machine name contains a dot and no ssh-key name was
supplied, the key-pair name a successful validate generates (dots replaced
by underscores) does not start with the machine name, so `Remove`'s prefix
heuristic classifies the generated key as pre-existing and never issues its
deletion. -/
theorem dotted_machine_generated_key_kept (env : Remote) (d d' : Driver)
    (hkey : d.KeyPairName = "") (hdot : '.' ∈ d.MachineName.toList)
    (h : PreCreateCheck env d = some (.ok d')) :
    goStartsWith d'.KeyPairName d'.MachineName = false ∧
    ∀ (rInst rKey : Option GoErr) p k,
      Op.delKey p k ∉ (Remove rInst rKey d').1 := by
  obtain ⟨d1, d2, d3, d4, h1, h2, h3, h4, h5⟩ :=
    PreCreateCheck_ok_decomp env d d' h
  have f1 := resolveProject_fields env d d1 h1
  have f2 := resolveFlavor_fields env d1 d2 h2
  have f3 := resolveImage_fields env d2 d3 h3
  have f4 := resolveNetworks_ok env d3 d4 h4
  have fk := resolveKeyPair_fields env d4
  have hM4 : d4.MachineName = d.MachineName := by
    rw [f4.1, f3.2.2.1, f2.2.2.1, f1.2.2.1]
  have hK4 : d4.KeyPairName = "" := by
    rw [f4.2.1, f3.2.2.2.1, f2.2.2.2.1, f1.2.2.2, hkey]
  have hM' : d'.MachineName = d.MachineName := by
    rw [h5, fk.2.2.1, hM4]
  have hK' : d'.KeyPairName =
      sanitizeKeyPairName (genKeyPairName d.MachineName env.randomID) := by
    rw [h5, resolveKeyPair_generated env d4 hK4, hM4]
  have hfalse : goStartsWith d'.KeyPairName d'.MachineName = false := by
    rw [hK', hM']
    exact goStartsWith_sanitized_generated d.MachineName env.randomID hdot
  exact ⟨hfalse,
    fun rInst rKey p k => Remove_no_delKey_without_prefix rInst rKey d' hfalse p k⟩

/-- C9 witness: the machine `web.1` with no supplied key validates to the
key name `web_1-abc123`, which fails the prefix test, and its removal
issues no key deletion. -/
theorem dotted_machine_generated_key_kept_witness :
    goStartsWith validatedDotted.KeyPairName validatedDotted.MachineName =
      false ∧
    Op.delKey "pr-1" "k1" ∉ (Remove none none validatedDotted).1 :=
  ⟨(dotted_machine_generated_key_kept fullEnv dottedDriver validatedDotted
      rfl (by decide) rfl).1,
   (dotted_machine_generated_key_kept fullEnv dottedDriver validatedDotted
      rfl (by decide) rfl).2 none none "pr-1" "k1"⟩

/-- C4: after a successful validate of a flag-configured driver, the stored
network-attachment list is exactly the resolved private network id followed
by the project's public network id when a private network was requested, and
empty otherwise. -/
theorem validate_network_attachments (flags : Flags) (env : Remote)
    (d' : Driver)
    (h : PreCreateCheck env (SetConfigFromFlags flags newDriver) =
      some (.ok d')) :
    (flags.privateNetwork ≠ "" → ∃ net pub,
      GetPrivateNetworkByName env d'.ProjectID flags.privateNetwork = .ok net ∧
      GetPublicNetworkID env d'.ProjectID = some (.ok pub) ∧
      d'.NetworkIDs = [net.ID, pub]) ∧
    (flags.privateNetwork = "" → d'.NetworkIDs = []) := by
  obtain ⟨d1, d2, d3, d4, h1, h2, h3, h4, h5⟩ :=
    PreCreateCheck_ok_decomp env (SetConfigFromFlags flags newDriver) d' h
  have f1 := resolveProject_fields env (SetConfigFromFlags flags newDriver) d1 h1
  have f2 := resolveFlavor_fields env d1 d2 h2
  have f3 := resolveImage_fields env d2 d3 h3
  have f4 := resolveNetworks_ok env d3 d4 h4
  have fk := resolveKeyPair_fields env d4
  have hPN3 : d3.PrivateNetworkName = flags.privateNetwork := by
    rw [f3.1, f2.1, f1.1]
    rfl
  have hN3 : d3.NetworkIDs = [] := by
    rw [f3.2.1, f2.2.1, f1.2.1]
    rfl
  have hPID : d'.ProjectID = d3.ProjectID := by
    rw [h5, fk.2.1, f4.2.2.1]
  have hN' : d'.NetworkIDs = d4.NetworkIDs := by
    rw [h5, fk.1]
  constructor
  · intro hp
    obtain ⟨net, pub, hnet, hpub, hids⟩ := f4.2.2.2.2.1 (by rw [hPN3]; exact hp)
    refine ⟨net, pub, ?_, ?_, ?_⟩
    · rw [hPID, ← hPN3]
      exact hnet
    · rw [hPID]
      exact hpub
    · rw [hN', hids, hN3]
      rfl
  · intro hp
    have := f4.2.2.2.2.2 (by rw [hPN3]; exact hp)
    rw [hN', this, hN3]

/-- C4 witness: with the private-network flags the validated driver stores
exactly the private then the public network id; without them it stores
none. -/
theorem validate_network_attachments_witness :
    (∃ net pub,
      GetPrivateNetworkByName fullEnv validatedPrivate.ProjectID
        flagsPrivate.privateNetwork = .ok net ∧
      GetPublicNetworkID fullEnv validatedPrivate.ProjectID =
        some (.ok pub) ∧
      validatedPrivate.NetworkIDs = [net.ID, pub]) ∧
    validatedPublic.NetworkIDs = [] :=
  ⟨(validate_network_attachments flagsPrivate fullEnv validatedPrivate
      rfl).1 (by decide),
   (validate_network_attachments flagsPublic fullEnv validatedPublic
      rfl).2 rfl⟩

end Ovh
